import Mathlib

/-!
Verification of the AarogyaAI backend against its specification.

Shallow embedding of the subsystems the claims concern:
* `DpPrivacy`   — src/backend/federated/dp_privacy.py
* `Aggregator`  — src/backend/federated/aggregator.py
* `Council`     — src/backend/council/groq_client.py and orchestrator.py
* `MainApp`     — the SSE event generator in src/backend/main.py
* `RedFlags`    — src/llm/red_flags.py
* `RagEngine`   — src/backend/rag/engine.py
* `Reports`     — src/backend/rag/report_processor.py

Machine floats are modelled as exact reals (`ℝ`) or rationals (`ℚ`);
random noise, external library calls (Groq transport, json parsing,
sklearn fitting, disk I/O) are modelled by explicit outcome parameters.

The file is organised as definitions first, theorems second.
-/

namespace DpPrivacy

/-- A Python float value as it can reach `validate_update`: either a
finite value (modelled exactly as a rational) or one of the non-finite
IEEE values NaN, +inf, -inf. -/
inductive PyFloat where
  | finite (q : ℚ)
  | nan
  | posInf
  | negInf
deriving DecidableEq, Repr

/-- Whether a `PyFloat` is a finite real value. -/
def PyFloat.isFiniteVal : PyFloat → Bool
  | .finite _ => true
  | _ => false

/-- `validate_update(update, expected_dim)` from dp_privacy.py:
`isinstance(update, list) and len(update) == expected_dim`.
The embedding types `update` as a list, so the isinstance test is
always true; only the length is compared.  Entries are not inspected. -/
def validate_update {α : Type} (update : List α) (expected_dim : Nat) : Bool :=
  update.length == expected_dim

/-- The L2 norm computed by `np.linalg.norm`, in exact real arithmetic. -/
noncomputable def l2norm (v : List ℝ) : ℝ :=
  Real.sqrt ((v.map (fun x => x ^ 2)).sum)

/-- `clip_gradients(gradients, clip_norm)` from dp_privacy.py:
if the L2 norm exceeds `clip_norm`, scale the vector by
`clip_norm / norm`; otherwise return it unchanged. -/
noncomputable def clip_gradients (gradients : List ℝ) (clip_norm : ℝ) : List ℝ :=
  if l2norm gradients > clip_norm then
    gradients.map (fun x => x * (clip_norm / l2norm gradients))
  else
    gradients

/-- `add_gaussian_noise(clipped, ...)`: adds the sampled noise vector
elementwise.  The Gaussian sample is external randomness, passed in
explicitly as `noise`. -/
noncomputable def add_gaussian_noise (clipped noise : List ℝ) : List ℝ :=
  clipped.zipWith (· + ·) noise

/-- `apply_dp(gradients, clip_norm, noise_multiplier)`: clip, then add
noise.  The sampled noise vector is passed explicitly; the noise
multiplier only parameterizes the (external) sampling distribution. -/
noncomputable def apply_dp (gradients : List ℝ) (clip_norm : ℝ) (noise : List ℝ) : List ℝ :=
  add_gaussian_noise (clip_gradients gradients clip_norm) noise

end DpPrivacy

namespace Aggregator

/-- `ADAPTER_DIM` from aggregator.py. -/
def ADAPTER_DIM : Nat := 128

/-- One entry of the `_pending_updates` buffer. -/
structure PendingUpdate where
  client_id : String
  update : List ℝ
  timestamp : ℝ

/-- The metadata dict persisted as `adapter_v<N>.json`. -/
structure AdapterMeta where
  version : Nat
  num_clients : Nat
  timestamp : ℝ
  adapter : List ℝ

/-- Module-level mutable state of aggregator.py: the pending buffer, the
version counter, and the adapter files written to the store directory. -/
structure AggState where
  pending : List PendingUpdate
  current_version : Nat
  store : List AdapterMeta

/-- Return value of `receive_update`. -/
inductive ReceiveResult where
  | error (message : String)
  | accepted (pending_count : Nat) (message : String)

/-- Return value of a successful `aggregate`. -/
structure AggResult where
  status : String
  version : Nat
  num_clients : Nat
  adapter_path : String

/-- The f-string `f"Expected {ADAPTER_DIM}-dim update."`. -/
def expectedDimMsg : String :=
  "Expected " ++ toString ADAPTER_DIM ++ "-dim update."

/-- `receive_update(client_id, raw_gradients)` from aggregator.py.
`noise` is the Gaussian sample drawn inside `apply_dp`; `now` is
`time.time()`; both are external inputs passed explicitly. -/
noncomputable def receive_update (client_id : String) (raw_gradients : List ℝ)
    (noise : List ℝ) (now : ℝ) (s : AggState) : ReceiveResult × AggState :=
  if DpPrivacy.validate_update raw_gradients ADAPTER_DIM then
    let dp_update := DpPrivacy.apply_dp raw_gradients 1 noise
    let pending := s.pending ++ [⟨client_id, dp_update, now⟩]
    (.accepted pending.length "Update received and DP-processed.",
     { s with pending := pending })
  else
    (.error expectedDimMsg, s)

/-- `np.mean(all_updates, axis=0)` for a list of equal-length rows:
the coordinate-wise mean. -/
noncomputable def meanVec (us : List (List ℝ)) : List ℝ :=
  (List.range (us.headD []).length).map
    (fun j => (us.map (fun u => u.getD j 0)).sum / us.length)

/-- `aggregate(min_clients)` from aggregator.py: below the threshold,
return None without touching state; otherwise average the pending
updates, bump the version, persist the adapter metadata, clear the
buffer, and return the new adapter info. -/
noncomputable def aggregate (min_clients : Nat) (now : ℝ) (s : AggState) :
    Option AggResult × AggState :=
  if s.pending.length < min_clients then
    (none, s)
  else
    let global_adapter := meanVec (s.pending.map (·.update))
    let v := s.current_version + 1
    let meta : AdapterMeta := ⟨v, s.pending.length, now, global_adapter⟩
    (some ⟨"aggregated", v, s.pending.length,
           "adapter_v" ++ toString v ++ ".json"⟩,
     { pending := [], current_version := v, store := s.store ++ [meta] })

/-- A sample buffer with two 128-dim updates (concrete scenario input). -/
noncomputable def samplePending : List PendingUpdate :=
  [⟨"a", List.replicate 128 (1 : ℝ), 0⟩, ⟨"b", List.replicate 128 (0 : ℝ), 0⟩]

/-- A sample aggregator state holding `samplePending` at version 0. -/
noncomputable def sampleState : AggState :=
  ⟨samplePending, 0, []⟩

/-- The empty aggregator state. -/
def emptyState : AggState :=
  ⟨[], 0, []⟩

end Aggregator

namespace Council

/-- The outcome of one external chat-completion call: the returned
message content, or the exception raised by the client library
(network error, provider error, malformed response, timeout). -/
abbrev GroqOutcome := Except String String

/-- `query_groq(model, messages, ...)` from groq_client.py performs the
external call and returns its content.  It has no try/except: any
failure of the call is raised to the caller unchanged.  The call is
modelled by its outcome. -/
def query_groq (outcome : GroqOutcome) : Except String String :=
  outcome

/-- The divergence members of `COUNCIL_MODELS` that
`query_council_parallel` fans out to, in dict order. -/
def councilMembers : List String :=
  ["member_a", "member_b", "member_c"]

/-- The empty-parse sentinel substituted for a failed divergence call. -/
def emptyParseSentinel : String :=
  "\x7b\"differentials\":[],\"next_steps\":[],\"confidence\":0,\"red_flag\":false\x7d"

/-- `query_council_parallel(sanitized_prompt)` from groq_client.py:
`asyncio.gather(..., return_exceptions=True)` over the three divergence
members; a raised exception is replaced by the empty-parse sentinel.
`outcomes` gives the outcome of each member call. -/
def query_council_parallel (outcomes : String → GroqOutcome) :
    List (String × String) :=
  councilMembers.map (fun name =>
    (name, match query_groq (outcomes name) with
           | .ok r => r
           | .error _ => emptyParseSentinel))

/-- The peer-review record extracted from the reviewer output
(`_safe_parse_json` followed by `.get("ranking")`). -/
structure PeerReview where
  ranking : List String
  reasoning : String
deriving DecidableEq, Repr

/-- Result dict of `run_convergence`, generic in the parsed divergence
record type `α`. -/
structure ConvergenceData (α : Type) where
  anon_map : List (String × String)
  peer_review : PeerReview
  divergence_results : List (String × α)
deriving DecidableEq, Repr

/-- `run_convergence(sanitized_prompt, divergence_results)` from
orchestrator.py.  `parse` models `_safe_parse_json` plus the
`peer_review.get("ranking")` truthiness test on the reviewer output
(None for a missing or non-list ranking); `reviewerOutcome` is the
outcome of the `query_groq` call to the reviewer model, which has no
exception handler: a transport failure propagates to the caller.
The review prompt assembly is pure string formatting and does not
affect control flow. -/
def run_convergence {α : Type} (parse : String → Option PeerReview)
    (reviewerOutcome : GroqOutcome)
    (divergence_results : List (String × α)) :
    Except String (ConvergenceData α) := do
  let members := divergence_results.map (·.1)
  let letters := (List.range members.length).map
    (fun i => String.mk [Char.ofNat (65 + i)])
  let anon_map := members.zip letters
  let review_text ← query_groq reviewerOutcome
  let peer_review :=
    match parse review_text with
    | some pr =>
        if pr.ranking.isEmpty then
          { ranking := anon_map.map (·.2), reasoning := "default order" }
        else pr
    | none => { ranking := anon_map.map (·.2), reasoning := "default order" }
  pure { anon_map := anon_map, peer_review := peer_review,
         divergence_results := divergence_results }

/-- `run_synthesis(sanitized_prompt, convergence_data)` from
orchestrator.py: builds the synthesis prompt (pure string formatting),
calls `query_groq` with the chairman model — again with no exception
handler, so a transport failure propagates — and parses the result.
`parse` models `_safe_parse_json` on the chairman output. -/
def run_synthesis {α β : Type} (parse : String → β)
    (chairmanOutcome : GroqOutcome)
    (convergence_data : ConvergenceData α) : Except String β := do
  let chairman_text ← query_groq chairmanOutcome
  pure (parse chairman_text)

/-- Sample divergence results for concrete executions. -/
def sampleDivergence : List (String × String) :=
  [("member_a", "x"), ("member_b", "y"), ("member_c", "z")]

end Council

namespace MainApp

/-- The `stage` field of an SSE event from `council_event_generator`. -/
inductive Stage where
  | classification
  | rag_retrieval
  | divergence
  | convergence
  | synthesis
  | done
  | error
deriving DecidableEq, Repr

/-- The `status` field of an SSE event. -/
inductive EvStatus where
  | running
  | complete
deriving DecidableEq, Repr

/-- One SSE event: stage, optional status, optional error message.
The `data` payloads are not modelled; no claim concerns them. -/
structure Event where
  stage : Stage
  status : Option EvStatus
  message : Option String
deriving DecidableEq, Repr

/-- The error event yielded by the `except` clause of the generator. -/
def errEvent (e : String) : Event :=
  ⟨.error, none, some e⟩

/-- The full event sequence of a successful run, in protocol order. -/
def protocolEvents : List Event :=
  [⟨.classification, some .complete, none⟩,
   ⟨.rag_retrieval, some .complete, none⟩,
   ⟨.divergence, some .running, none⟩,
   ⟨.divergence, some .complete, none⟩,
   ⟨.convergence, some .running, none⟩,
   ⟨.convergence, some .complete, none⟩,
   ⟨.synthesis, some .running, none⟩,
   ⟨.synthesis, some .complete, none⟩,
   ⟨.done, none, none⟩]

/-- `council_event_generator(sanitized_prompt)` from main.py.  Each
fallible sub-step is modelled by its outcome: `cls` is
`classifier.predict`, `rag` covers the two RAG calls, `div`, `conv`,
`syn` are the three awaited stages, and `store` is the hospital-store
write.  The whole body runs under one try/except that yields a single
error event; the store write has its own inner try/except whose failure
is swallowed.  Events are yielded exactly as in the source order. -/
def council_event_generator {α β γ δ ε : Type}
    (cls : Except String α) (rag : Except String β)
    (div : Except String γ) (conv : Except String δ)
    (syn : Except String ε) (store : Except String Unit) : List Event :=
  match cls with
  | .error e => [errEvent e]
  | .ok _ =>
    ⟨.classification, some .complete, none⟩ ::
    match rag with
    | .error e => [errEvent e]
    | .ok _ =>
      ⟨.rag_retrieval, some .complete, none⟩ ::
      ⟨.divergence, some .running, none⟩ ::
      match div with
      | .error e => [errEvent e]
      | .ok _ =>
        ⟨.divergence, some .complete, none⟩ ::
        ⟨.convergence, some .running, none⟩ ::
        match conv with
        | .error e => [errEvent e]
        | .ok _ =>
          ⟨.convergence, some .complete, none⟩ ::
          ⟨.synthesis, some .running, none⟩ ::
          match syn with
          | .error e => [errEvent e]
          | .ok _ =>
            ⟨.synthesis, some .complete, none⟩ ::
            match store with
            | .error _ => [⟨.done, none, none⟩]
            | .ok _ => [⟨.done, none, none⟩]

end MainApp

namespace RedFlags

/-- Symptom text, modelled as its character sequence. -/
abbrev Str := List Char

/-- Whether `p` is an initial segment of `s` (helper for substring
containment). -/
def listLeads : Str → Str → Bool
  | [], _ => true
  | _ :: _, [] => false
  | a :: p, b :: s => a == b && listLeads p s

/-- Python `p in s` substring containment on strings. -/
def pyIn (p : Str) : Str → Bool
  | [] => p.isEmpty
  | s@(_ :: t) => listLeads p s || pyIn p t

/-- The characters removed by Python `str.strip()`. -/
def isSpaceChar (c : Char) : Bool :=
  c == ' ' || c == '\t' || c == '\n' || c == '\r' || c == '\x0b' || c == '\x0c'

/-- Python `str.strip()`: drop leading and trailing whitespace. -/
def pyStrip (s : Str) : Str :=
  ((s.dropWhile isSpaceChar).reverse.dropWhile isSpaceChar).reverse

/-- `RedFlagEngine._normalize_text`: `text.lower().strip()`. -/
def normalize_text (s : Str) : Str :=
  pyStrip (s.map Char.toLower)

/-- `RedFlagEngine.IMMEDIATE_RED_FLAGS` from red_flags.py. -/
def IMMEDIATE_RED_FLAGS : List Str :=
  ["severe chest pain",
   "crushing chest pain",
   "chest pain radiating to arm",
   "chest pain radiating to jaw",
   "sudden severe headache",
   "worst headache of life",
   "syncope",
   "loss of consciousness",
   "uncontrolled bleeding",
   "severe bleeding",
   "hemoptysis",
   "coughing up blood",
   "severe shortness of breath",
   "difficulty breathing",
   "unable to breathe",
   "stroke symptoms",
   "facial drooping",
   "slurred speech",
   "sudden weakness",
   "severe allergic reaction",
   "anaphylaxis",
   "throat swelling",
   "severe abdominal pain",
   "rigid abdomen",
   "suicidal thoughts",
   "suicide",
   "self harm",
   "seizure",
   "convulsion"].map String.data

/-- `RedFlagEngine.URGENT_FLAGS` from red_flags.py. -/
def URGENT_FLAGS : List Str :=
  ["chest pain",
   "chest discomfort",
   "shortness of breath",
   "difficulty breathing on exertion",
   "persistent fever",
   "high fever",
   "severe pain",
   "sudden vision loss",
   "sudden hearing loss",
   "severe headache",
   "persistent vomiting",
   "severe diarrhea",
   "blood in stool",
   "blood in urine",
   "severe dizziness",
   "confusion",
   "altered mental status"].map String.data

/-- One entry of `RedFlagEngine.COMBINATION_RULES`. -/
structure ComboRule where
  name : String
  symptoms : List Str
  threshold : Nat
  level : String
  rationale : String

/-- `RedFlagEngine.COMBINATION_RULES` from red_flags.py. -/
def COMBINATION_RULES : List ComboRule :=
  [⟨"cardiac_risk",
    ["chest pain", "shortness of breath", "sweating"].map String.data,
    2, "immediate", "Multiple cardiac symptoms present"⟩,
   ⟨"sepsis_risk",
    ["fever", "confusion", "rapid heart rate",
     "low blood pressure"].map String.data,
    2, "immediate", "Possible sepsis - requires immediate evaluation"⟩,
   ⟨"respiratory_distress",
    ["shortness of breath", "chest pain", "rapid breathing"].map String.data,
    2, "immediate", "Respiratory distress pattern"⟩]

/-- One row of `RedFlagEngine.VITAL_THRESHOLDS`.  The field names match
the dict keys `min` / `max` / `level`. -/
structure VitalThreshold where
  min : ℚ
  max : ℚ
  level : String
deriving DecidableEq, Repr

/-- `RedFlagEngine.VITAL_THRESHOLDS` as a dict lookup. -/
def VITAL_THRESHOLDS (name : String) : Option VitalThreshold :=
  if name == "heart_rate" then some ⟨40, 120, "urgent"⟩
  else if name == "systolic_bp" then some ⟨90, 180, "urgent"⟩
  else if name == "diastolic_bp" then some ⟨60, 110, "urgent"⟩
  else if name == "respiratory_rate" then some ⟨10, 25, "urgent"⟩
  else if name == "temperature_f" then some ⟨95, 103, "urgent"⟩
  else if name == "oxygen_saturation" then some ⟨92, 100, "immediate"⟩
  else none

/-- The `triggered` list built inside `_check_immediate_flags`: for each
flag, one occurrence per normalized symptom containing it (the inner
loop appends without break). -/
def immediateTriggered (symptoms : List Str) : List Str :=
  IMMEDIATE_RED_FLAGS.flatMap (fun flag =>
    ((symptoms.map normalize_text).filter (fun sym => pyIn flag sym)).map
      (fun _ => flag))

/-- `RedFlagEngine._check_immediate_flags`. -/
def checkImmediateFlags (symptoms : List Str) : Bool × List Str × String :=
  let triggered := immediateTriggered symptoms
  if triggered.isEmpty then (false, [], "")
  else
    (true, triggered,
     "IMMEDIATE EMERGENCY: Detected critical symptoms: " ++
       String.intercalate ", " (triggered.map (fun t => String.mk t)) ++
       ". Seek emergency care immediately or call emergency services.")

/-- The `triggered` list built inside `_check_urgent_flags`. -/
def urgentTriggered (symptoms : List Str) : List Str :=
  URGENT_FLAGS.flatMap (fun flag =>
    ((symptoms.map normalize_text).filter (fun sym => pyIn flag sym)).map
      (fun _ => flag))

/-- `RedFlagEngine._check_urgent_flags`. -/
def checkUrgentFlags (symptoms : List Str) : Bool × List Str × String :=
  let triggered := urgentTriggered symptoms
  if triggered.isEmpty then (false, [], "")
  else
    (true, triggered,
     "URGENT: Detected symptoms requiring prompt evaluation: " ++
       String.intercalate ", " (triggered.map (fun t => String.mk t)) ++
       ". Contact your healthcare provider today or visit urgent care.")

/-- The per-rule matched target phrases in `_check_combination_rules`:
each rule symptom counts once if some normalized user symptom contains
it (the inner loop breaks after the first hit). -/
def comboMatched (symptoms : List Str) (rule : ComboRule) : List Str :=
  rule.symptoms.filter (fun rs =>
    (symptoms.map normalize_text).any (fun us => pyIn rs us))

/-- `RedFlagEngine._check_combination_rules`: the first rule (in list
order) whose match count reaches its threshold fires; the triggered
list holds the rule name. -/
def checkCombinationRules (symptoms : List Str) : Bool × List String × String :=
  match COMBINATION_RULES.find? (fun rule =>
      rule.threshold ≤ (comboMatched symptoms rule).length) with
  | some rule =>
      (true, [rule.name],
       rule.level.toUpper ++ ": " ++ rule.rationale ++ ". Matched symptoms: " ++
         String.intercalate ", " ((comboMatched symptoms rule).map
           (fun t => String.mk t)) ++
         ". Seek immediate medical attention.")
  | none => (false, [], "")

/-- `RedFlagEngine._check_vital_signs`.  The last component is the
`is_emergency` flag the function computes internally; `evaluate` in the
source re-derives it as the substring test `"IMMEDIATE" in msg`, which
is equivalent because the message begins with "IMMEDIATE EMERGENCY"
exactly when the flag is set and with "URGENT" otherwise, and the
remainder of the message never contains "IMMEDIATE" (vital names come
from the fixed lowercase threshold table).  The triggered entries are
kept as (name, value) pairs; the source formats them as "name=value". -/
def checkVitalSigns (vitals : List (String × ℚ)) :
    Bool × List (String × ℚ) × String × Bool :=
  let triggered := vitals.filter (fun nv =>
    match VITAL_THRESHOLDS nv.1 with
    | some t => decide (nv.2 < t.min) || decide (t.max < nv.2)
    | none => false)
  let is_emergency := triggered.any (fun nv =>
    match VITAL_THRESHOLDS nv.1 with
    | some t => t.level == "immediate"
    | none => false)
  if triggered.isEmpty then (false, [], "", false)
  else
    let level := if is_emergency then "IMMEDIATE EMERGENCY" else "URGENT"
    (true, triggered,
     level ++ ": Vital signs outside safe range: " ++
       String.intercalate ", "
         (triggered.map (fun nv => nv.1 ++ "=" ++ toString nv.2)) ++
       ". Seek medical attention.", is_emergency)

/-- One element of the `triggered_rules` list of a verdict.  The source
mixes plain strings: keyword phrases, combination-rule names, and
formatted "name=value" vital entries; the embedding keeps them as a
tagged union so provenance stays visible. -/
inductive TrigEntry where
  | phrase (p : Str)
  | rule (name : String)
  | vital (name : String) (value : ℚ)
deriving DecidableEq, Repr

/-- The `RedFlagResult` dataclass. -/
structure RedFlagResult where
  is_emergency : Bool
  rationale : String
  triggered_rules : List TrigEntry
  urgency_level : String
deriving DecidableEq, Repr

/-- `RedFlagEngine.evaluate(symptoms, vitals)` from red_flags.py. -/
def evaluate (symptoms : List Str) (vitals : List (String × ℚ)) :
    RedFlagResult :=
  match checkImmediateFlags symptoms with
  | (true, trig, msg) => ⟨true, msg, trig.map .phrase, "immediate"⟩
  | (false, _, _) =>
    match checkCombinationRules symptoms with
    | (true, trig, msg) => ⟨true, msg, trig.map .rule, "immediate"⟩
    | (false, _, _) =>
      let urg := checkUrgentFlags symptoms
      let allTrig := if urg.1 then urg.2.1.map TrigEntry.phrase else []
      let urgency := if urg.1 then "urgent" else "routine"
      let rationale := if urg.1 then urg.2.2
                       else "No immediate red flags detected."
      if vitals.isEmpty then
        ⟨urgency == "immediate", rationale, allTrig, urgency⟩
      else
        match checkVitalSigns vitals with
        | (true, vtrig, vmsg, vem) =>
          let allTrig₂ := allTrig ++
            vtrig.map (fun nv => TrigEntry.vital nv.1 nv.2)
          if vem then
            ⟨true, vmsg, allTrig₂, "immediate"⟩
          else
            let urgency₂ := if urgency != "immediate" then "urgent"
                            else urgency
            let rationale₂ := if urgency != "immediate" then vmsg
                              else rationale
            ⟨urgency₂ == "immediate", rationale₂, allTrig₂, urgency₂⟩
        | (false, _, _, _) =>
          ⟨urgency == "immediate", rationale, allTrig, urgency⟩

end RedFlags

namespace RagEngine

/-- A document as assembled by the loaders in engine.py: id, topic,
source, content, and the type tag (`dtype` stands for the dict key
`type`, a reserved word in Lean). -/
structure Doc where
  id : String
  topic : String
  source : String
  content : String
  dtype : String
deriving DecidableEq, Repr

/-- The mutable fields of a `RAGEngine` object.  `Vec` is the type of
TfidfVectorizer objects and `Idx` the type of FAISS index objects;
both are external library state, kept abstract. -/
structure EngineState (Vec Idx : Type) where
  documents : List Doc
  vectorizer : Option Vec
  index : Option Idx
  is_built : Bool
deriving DecidableEq, Repr

/-- `RAGEngine.build_index`.  `load` is the document list produced by
`load_knowledge_base` + `load_user_reports` (disk I/O, external);
`mkVec` is the freshly constructed, unfitted `TfidfVectorizer`, which
the source assigns to `self.vectorizer` before fitting; `fit` models
`fit_transform` + normalization + FAISS index construction, which can
raise (for example on an empty-vocabulary corpus) and on success
yields the fitted vectorizer and the new index.  The second component
of the result is the raised exception, if any; on a raise the
mutations already performed persist (documents loaded, vectorizer
reassigned) while `index` and `_is_built` keep their previous values. -/
def build_index {Vec Idx : Type} (load : List Doc) (mkVec : Vec)
    (fit : List Doc → Except String (Vec × Idx))
    (s : EngineState Vec Idx) : EngineState Vec Idx × Option String :=
  let docs := if s.documents.isEmpty then load else s.documents
  if docs.isEmpty then
    ({ s with documents := docs }, none)
  else
    match fit docs with
    | .error e =>
        ({ s with documents := docs, vectorizer := some mkVec }, some e)
    | .ok (fv, idx) =>
        (⟨docs, some fv, some idx, true⟩, none)

/-- `RAGEngine.rebuild_index`: set `self.documents = []` and
`self._is_built = False`, then call `build_index`. -/
def rebuild_index {Vec Idx : Type} (load : List Doc) (mkVec : Vec)
    (fit : List Doc → Except String (Vec × Idx))
    (s : EngineState Vec Idx) : EngineState Vec Idx × Option String :=
  build_index load mkVec fit { s with documents := [], is_built := false }

/-- A sample built engine state over `Vec = Idx = Nat`. -/
def sampleBuilt : EngineState Nat Nat :=
  ⟨[⟨"kb_0", "t", "s", "c", "knowledge_base"⟩], some 0, some 0, true⟩

/-- A sample loaded document list. -/
def sampleLoad : List Doc :=
  [⟨"kb_0", "t", "s", "c", "knowledge_base"⟩]

end RagEngine

namespace Reports

/-- A byte of an uploaded file. -/
abbrev Byte := Fin 256

/-- Decode one UTF-8 code point from the head of the byte list in the
strict manner of the Python utf-8 codec: continuation-byte ranges,
overlong encodings, surrogates and out-of-range values are rejected.
Returns the code point and the remaining bytes. -/
def utf8DecodeOne : List Byte → Option (Nat × List Byte)
  | [] => none
  | b :: rest =>
    let n := b.val
    if n < 0x80 then some (n, rest)
    else if 0xC2 ≤ n ∧ n ≤ 0xDF then
      match rest with
      | c1 :: r =>
        if 0x80 ≤ c1.val ∧ c1.val ≤ 0xBF then
          some ((n - 0xC0) * 0x40 + (c1.val - 0x80), r)
        else none
      | [] => none
    else if 0xE0 ≤ n ∧ n ≤ 0xEF then
      match rest with
      | c1 :: c2 :: r =>
        if (if n = 0xE0 then 0xA0 else 0x80) ≤ c1.val ∧
            c1.val ≤ (if n = 0xED then 0x9F else 0xBF) ∧
            0x80 ≤ c2.val ∧ c2.val ≤ 0xBF then
          some ((n - 0xE0) * 0x1000 + (c1.val - 0x80) * 0x40 +
                (c2.val - 0x80), r)
        else none
      | _ => none
    else if 0xF0 ≤ n ∧ n ≤ 0xF4 then
      match rest with
      | c1 :: c2 :: c3 :: r =>
        if (if n = 0xF0 then 0x90 else 0x80) ≤ c1.val ∧
            c1.val ≤ (if n = 0xF4 then 0x8F else 0xBF) ∧
            0x80 ≤ c2.val ∧ c2.val ≤ 0xBF ∧
            0x80 ≤ c3.val ∧ c3.val ≤ 0xBF then
          some ((n - 0xF0) * 0x40000 + (c1.val - 0x80) * 0x1000 +
                (c2.val - 0x80) * 0x40 + (c3.val - 0x80), r)
        else none
      | _ => none
    else none

/-- Fueled UTF-8 decoding loop; each successful step consumes at least
one byte, so fuel equal to the byte count always suffices. -/
def utf8DecodeAux : Nat → List Byte → Option (List Char)
  | _, [] => some []
  | 0, _ :: _ => none
  | fuel + 1, bs =>
    match utf8DecodeOne bs with
    | none => none
    | some (cp, rest) =>
      match utf8DecodeAux fuel rest with
      | none => none
      | some cs => some (Char.ofNat cp :: cs)

/-- `bytes.decode("utf-8")`: the decoded text, or `none` for the
`UnicodeDecodeError` case. -/
def utf8Decode (bs : List Byte) : Option (List Char) :=
  utf8DecodeAux bs.length bs

/-- `bytes.decode("latin-1")`: total — every byte maps to the code
point of the same value. -/
def latin1Decode (bs : List Byte) : List Char :=
  bs.map (fun b => Char.ofNat b.val)

/-- `extract_text_from_txt(file_bytes)` from report_processor.py:
decode as UTF-8; on `UnicodeDecodeError` fall back to latin-1. -/
def extract_text_from_txt (file_bytes : List Byte) : List Char :=
  match utf8Decode file_bytes with
  | some s => s
  | none => latin1Decode file_bytes

/-- `extract_text_from_pdf(file_bytes)`: the PyPDF2 extraction is
external (`pdfLib`); its whole body is wrapped in try/except returning
a placeholder string on failure. -/
def extract_text_from_pdf (pdfLib : List Byte → Except String (List Char))
    (file_bytes : List Byte) : List Char :=
  match pdfLib file_bytes with
  | .ok t => t
  | .error e => ("[PDF extraction error: " ++ e ++ "]").data

/-- `extract_text_from_docx(file_bytes)`: as for PDF, with python-docx
as the external extractor. -/
def extract_text_from_docx (docxLib : List Byte → Except String (List Char))
    (file_bytes : List Byte) : List Char :=
  match docxLib file_bytes with
  | .ok t => t
  | .error e => ("[DOCX extraction error: " ++ e ++ "]").data

/-- `Path(filename).suffix.lower()`: the extension of the final path
component, including the dot, when the last dot is neither the first
nor the last character of that component; lowercased. -/
def pySuffixLower (filename : List Char) : List Char :=
  let name := (filename.reverse.takeWhile (fun c => c != '/')).reverse
  let afterDot := name.reverse.takeWhile (fun c => c != '.')
  if afterDot.length < name.length ∧ 0 < afterDot.length ∧
      afterDot.length < name.length - 1 then
    ('.' :: afterDot.reverse).map Char.toLower
  else []

/-- `len(text.split())`: the number of maximal non-whitespace runs. -/
def wordCount (s : List Char) : Nat :=
  (s.foldl (fun (acc : Nat × Bool) c =>
    if RedFlags.isSpaceChar c then (acc.1, false)
    else if acc.2 then acc else (acc.1 + 1, true)) (0, false)).1

/-- The metadata record appended to reports_index.json. -/
structure ReportRecord where
  id : String
  filename : List Char
  file_type : List Char
  uploaded_at : String
  extracted_text : List Char
  char_count : Nat
  word_count : Nat

/-- The dict returned by `process_report`. -/
structure ReportSummary where
  id : String
  filename : List Char
  char_count : Nat
  word_count : Nat
  status : String

/-- `process_report(filename, file_bytes)` from report_processor.py.
External inputs passed explicitly: the PDF and DOCX extractor
libraries, the uuid-derived `report_id`, the timestamp `now`, and the
current persisted index `reports`.  Writing the raw file to disk is
out-of-scope I/O.  Returns the summary dict and the updated index. -/
def process_report (pdfLib docxLib : List Byte → Except String (List Char))
    (report_id : String) (now : String)
    (filename : List Char) (file_bytes : List Byte)
    (reports : List ReportRecord) :
    ReportSummary × List ReportRecord :=
  let ext := pySuffixLower filename
  let extracted_text :=
    if ext = ".pdf".data then extract_text_from_pdf pdfLib file_bytes
    else if ext = ".docx".data ∨ ext = ".doc".data then
      extract_text_from_docx docxLib file_bytes
    else if ext = ".txt".data ∨ ext = ".text".data then
      extract_text_from_txt file_bytes
    else
      extract_text_from_txt file_bytes
  let report : ReportRecord :=
    ⟨report_id, filename, ext, now, extracted_text,
     extracted_text.length, wordCount extracted_text⟩
  (⟨report_id, filename, extracted_text.length, wordCount extracted_text,
    "processed"⟩,
   reports ++ [report])

end Reports

/-! ## Theorems -/

namespace DpPrivacy

lemma sum_sq_nonneg (v : List ℝ) : 0 ≤ (v.map (fun x => x ^ 2)).sum := by
  apply List.sum_nonneg
  intro x hx
  simp only [List.mem_map] at hx
  obtain ⟨y, _, rfl⟩ := hx
  positivity

lemma l2norm_nonneg (v : List ℝ) : 0 ≤ l2norm v :=
  Real.sqrt_nonneg _

lemma l2norm_map_mul (v : List ℝ) (k : ℝ) :
    l2norm (v.map (fun x => x * k)) = |k| * l2norm v := by
  unfold l2norm
  rw [List.map_map]
  have h1 : ((fun x => x ^ 2) ∘ fun x => x * k) = fun x => x ^ 2 * k ^ 2 := by
    funext x; simp only [Function.comp_apply]; ring
  rw [h1]
  have h2 : (v.map fun x => x ^ 2 * k ^ 2).sum = (v.map fun x => x ^ 2).sum * k ^ 2 := by
    rw [← List.sum_map_mul_right]
  rw [h2, Real.sqrt_mul (sum_sq_nonneg v), Real.sqrt_sq_eq_abs, mul_comm]

lemma l2norm_clip_le (v : List ℝ) (c : ℝ) (hc : 0 < c) :
    l2norm (clip_gradients v c) ≤ c := by
  unfold clip_gradients
  split
  · next h =>
    have hn : 0 < l2norm v := lt_trans hc h
    rw [l2norm_map_mul]
    have hk : 0 ≤ c / l2norm v := le_of_lt (div_pos hc hn)
    rw [abs_of_nonneg hk, div_mul_cancel₀ c (ne_of_gt hn)]
  · next h => exact le_of_not_lt h

/-- C8: in exact real arithmetic the clipped vector has L2 norm at most
the clip norm, and clipping is idempotent. -/
theorem clip_contract_and_idempotent (v : List ℝ) (c : ℝ) (hc : 0 < c) :
    l2norm (clip_gradients v c) ≤ c ∧
    clip_gradients (clip_gradients v c) c = clip_gradients v c := by
  refine ⟨l2norm_clip_le v c hc, ?_⟩
  have h : ¬ l2norm (clip_gradients v c) > c := not_lt.mpr (l2norm_clip_le v c hc)
  conv_lhs => rw [clip_gradients]
  rw [if_neg h]

/-- Witness for `clip_contract_and_idempotent` at v = [3, 4], c = 1. -/
theorem clip_contract_and_idempotent_witness :
    (0 : ℝ) < 1 ∧
      (l2norm (clip_gradients [3, 4] 1) ≤ 1 ∧
       clip_gradients (clip_gradients [3, 4] 1) 1 = clip_gradients [3, 4] 1) :=
  ⟨by norm_num, clip_contract_and_idempotent [3, 4] 1 (by norm_num)⟩

/-- C6 counterexample: the claim that `validate(v, d)` returns true iff
`v` is a finite vector of length `d` fails on the code: a length-3
all-NaN vector passes validation against dimension 3 even though no
entry is finite. -/
theorem validate_update_accepts_nan :
    ¬ (validate_update (List.replicate 3 PyFloat.nan) 3 = true ↔
        ((List.replicate 3 PyFloat.nan).length = 3 ∧
         ∀ x ∈ List.replicate 3 PyFloat.nan, x.isFiniteVal = true)) := by
  decide

/-- C6 amended: `validate(v, d)` returns true iff `v` has length exactly
`d`; the entries, finite or not, are never inspected. -/
theorem validate_update_iff_length (v : List PyFloat) (d : Nat) :
    validate_update v d = true ↔ v.length = d := by
  unfold validate_update
  exact beq_iff_eq

end DpPrivacy

namespace Aggregator

lemma getD_map_range (d j : Nat) (f : Nat → ℝ) (hj : j < d) :
    (((List.range d).map f).getD j 0) = f j := by
  rw [List.getD_eq_getElem?_getD, List.getElem?_map, List.getElem?_range hj]
  rfl

/-- C5: `aggregate` below threshold returns none and leaves the state
unchanged; at or above threshold (with at least one pending update) it
empties the buffer, increments the version by exactly one, and persists
an adapter whose vector is the coordinate-wise mean of the pending
update vectors. -/
theorem aggregate_spec (m : Nat) (now : ℝ) (s : AggState)
    (hdim : ∀ u ∈ s.pending, u.update.length = ADAPTER_DIM) :
    (s.pending.length < m → aggregate m now s = (none, s)) ∧
    (1 ≤ m → m ≤ s.pending.length →
      (aggregate m now s).2.pending = [] ∧
      (aggregate m now s).2.current_version = s.current_version + 1 ∧
      ∃ meta,
        (aggregate m now s).2.store = s.store ++ [meta] ∧
        meta.version = s.current_version + 1 ∧
        meta.num_clients = s.pending.length ∧
        meta.adapter.length = ADAPTER_DIM ∧
        ∀ j < ADAPTER_DIM,
          meta.adapter.getD j 0 =
            (s.pending.map (fun u => u.update.getD j 0)).sum /
              s.pending.length) := by
  constructor
  · intro hlt
    unfold aggregate
    rw [if_pos hlt]
  · intro hm hle
    have hnlt : ¬ s.pending.length < m := not_lt.mpr hle
    have hne : s.pending ≠ [] := by
      intro h
      rw [h] at hle
      simp only [List.length_nil] at hle
      omega
    have hd : ((s.pending.map (·.update)).headD []).length = ADAPTER_DIM := by
      obtain ⟨u, us, hcons⟩ := List.exists_cons_of_ne_nil hne
      rw [hcons]
      simp only [List.map_cons, List.headD_cons]
      exact hdim u (by rw [hcons]; exact List.mem_cons_self u us)
    unfold aggregate
    rw [if_neg hnlt]
    refine ⟨rfl, rfl, ⟨s.current_version + 1, s.pending.length, now,
      meanVec (s.pending.map (·.update))⟩, rfl, rfl, rfl, ?_, ?_⟩
    · show (meanVec (s.pending.map (·.update))).length = ADAPTER_DIM
      unfold meanVec
      rw [List.length_map, List.length_range, hd]
    · intro j hj
      show (meanVec (s.pending.map (·.update))).getD j 0 = _
      unfold meanVec
      rw [hd, getD_map_range ADAPTER_DIM j _ hj, List.map_map,
        List.length_map]
      rfl

/-- Witness for `aggregate_spec`: two pending 128-dim updates, threshold 2. -/
theorem aggregate_spec_witness :
    (∀ u ∈ sampleState.pending, u.update.length = ADAPTER_DIM) ∧
    (1 ≤ 2 → 2 ≤ sampleState.pending.length →
      (aggregate 2 0 sampleState).2.pending = [] ∧
      (aggregate 2 0 sampleState).2.current_version =
        sampleState.current_version + 1 ∧
      ∃ meta,
        (aggregate 2 0 sampleState).2.store = sampleState.store ++ [meta] ∧
        meta.version = sampleState.current_version + 1 ∧
        meta.num_clients = sampleState.pending.length ∧
        meta.adapter.length = ADAPTER_DIM ∧
        ∀ j < ADAPTER_DIM,
          meta.adapter.getD j 0 =
            (sampleState.pending.map (fun u => u.update.getD j 0)).sum /
              sampleState.pending.length) := by
  have hdim : ∀ u ∈ sampleState.pending, u.update.length = ADAPTER_DIM := by
    intro u hu
    simp only [sampleState, samplePending, List.mem_cons,
      List.not_mem_nil, or_false] at hu
    rcases hu with rfl | rfl <;> simp [ADAPTER_DIM]
  exact ⟨hdim, (aggregate_spec 2 0 sampleState hdim).2⟩

/-- C7: `receive_update` rejects a vector that fails validation with an
error naming the expected dimension and leaves the buffer untouched;
a vector that passes validation is DP-processed and appended, and the
reported pending count is the new buffer length. -/
theorem receive_update_spec (cid : String) (raw noise : List ℝ) (now : ℝ)
    (s : AggState) :
    (DpPrivacy.validate_update raw ADAPTER_DIM = false →
      receive_update cid raw noise now s = (.error expectedDimMsg, s) ∧
      expectedDimMsg = "Expected 128-dim update.") ∧
    (DpPrivacy.validate_update raw ADAPTER_DIM = true →
      receive_update cid raw noise now s =
        (.accepted (s.pending.length + 1) "Update received and DP-processed.",
         { s with pending :=
            s.pending ++ [⟨cid, DpPrivacy.apply_dp raw 1 noise, now⟩] })) := by
  constructor
  · intro hv
    refine ⟨?_, rfl⟩
    unfold receive_update
    rw [hv]
    rfl
  · intro hv
    unfold receive_update
    rw [hv]
    simp

/-- Witness for `receive_update_spec`: a 3-dim vector is rejected against
dimension 128, and a 128-dim vector is accepted. -/
theorem receive_update_spec_witness :
    (DpPrivacy.validate_update [(1 : ℝ), 2, 3] ADAPTER_DIM = false ∧
      receive_update "c1" [(1 : ℝ), 2, 3] [] 0 emptyState =
        (.error expectedDimMsg, emptyState) ∧
      expectedDimMsg = "Expected 128-dim update.") ∧
    (DpPrivacy.validate_update (List.replicate 128 (0 : ℝ)) ADAPTER_DIM = true ∧
      receive_update "c1" (List.replicate 128 (0 : ℝ))
          (List.replicate 128 (0 : ℝ)) 0 emptyState =
        (.accepted (emptyState.pending.length + 1)
           "Update received and DP-processed.",
         { emptyState with pending :=
            [] ++ [⟨"c1", DpPrivacy.apply_dp (List.replicate 128 (0 : ℝ)) 1
                     (List.replicate 128 (0 : ℝ)), 0⟩] })) := by
  have h1 : DpPrivacy.validate_update [(1 : ℝ), 2, 3] ADAPTER_DIM = false := by
    unfold DpPrivacy.validate_update ADAPTER_DIM
    decide
  have h2 : DpPrivacy.validate_update (List.replicate 128 (0 : ℝ))
      ADAPTER_DIM = true := by
    unfold DpPrivacy.validate_update ADAPTER_DIM
    simp
  refine ⟨⟨h1, (receive_update_spec "c1" [(1 : ℝ), 2, 3] [] 0 emptyState).1 h1⟩,
         ⟨h2, ?_⟩⟩
  have h3 := (receive_update_spec "c1" (List.replicate 128 (0 : ℝ))
      (List.replicate 128 (0 : ℝ)) 0 emptyState).2 h2
  simpa [emptyState] using h3

end Aggregator

namespace Council

/-- C1 counterexample: a transport failure of the reviewer call is not
replaced by the sentinel.  `run_convergence` propagates the exception
to its caller, and the orchestrator event stream then surfaces it as a
user-visible `error` event — contradicting the claim that no transport
failure at any call site is surfaced. -/
theorem reviewer_failure_surfaces :
    (Council.run_convergence (fun _ => none)
        (Except.error "APITimeoutError") Council.sampleDivergence).isOk
      = false ∧
    MainApp.council_event_generator (Except.ok 0) (Except.ok 0) (Except.ok 0)
        (Council.run_convergence (fun _ => none)
          (Except.error "APITimeoutError") Council.sampleDivergence)
        (Except.ok 0) (Except.ok ())
      = MainApp.protocolEvents.take 5 ++ [MainApp.errEvent "APITimeoutError"] :=
  ⟨rfl, rfl⟩

/-- C1 amended: transport failures are absorbed only during the
divergence fan-out, where each failed member is mapped to the
empty-parse sentinel and each successful member to its returned text;
a transport failure of the reviewer call in convergence or of the
chairman call in synthesis instead propagates as an exception to the
caller (which the event stream surfaces as an error event). -/
theorem transport_sentinel_divergence_only {α β : Type}
    (outcomes : String → GroqOutcome) (name : String) (err : String)
    (parse : String → Option PeerReview) (parseS : String → β)
    (div : List (String × α)) (conv : ConvergenceData α) :
    (name ∈ councilMembers → outcomes name = Except.error err →
      (name, emptyParseSentinel) ∈ query_council_parallel outcomes) ∧
    (∀ text, name ∈ councilMembers → outcomes name = Except.ok text →
      (name, text) ∈ query_council_parallel outcomes) ∧
    run_convergence parse (Except.error err) div = Except.error err ∧
    run_synthesis parseS (Except.error err) conv = Except.error err := by
  refine ⟨?_, ?_, rfl, rfl⟩
  · intro hmem hout
    unfold query_council_parallel
    rw [List.mem_map]
    exact ⟨name, hmem, by rw [hout]; rfl⟩
  · intro text hmem hout
    unfold query_council_parallel
    rw [List.mem_map]
    exact ⟨name, hmem, by rw [hout]; rfl⟩

/-- Witness for `transport_sentinel_divergence_only`: all members fail
for one oracle (member_b maps to the sentinel), all succeed for another
(member_a maps to its text), and the concrete reviewer and chairman
failures propagate. -/
theorem transport_sentinel_divergence_only_witness :
    ("member_b" ∈ councilMembers ∧
      (fun _ => (Except.error "boom" : GroqOutcome)) "member_b" =
        Except.error "boom" ∧
      ("member_b", emptyParseSentinel) ∈
        query_council_parallel (fun _ => Except.error "boom")) ∧
    ("member_a" ∈ councilMembers ∧
      (fun _ => (Except.ok "hello" : GroqOutcome)) "member_a" =
        Except.ok "hello" ∧
      ("member_a", "hello") ∈
        query_council_parallel (fun _ => Except.ok "hello")) ∧
    run_convergence (fun _ => none) (Except.error "boom")
        ([] : List (String × Nat)) = Except.error "boom" ∧
    run_synthesis (fun _ => (0 : Nat)) (Except.error "boom")
        (⟨[], ⟨[], ""⟩, []⟩ : ConvergenceData Nat) = Except.error "boom" :=
  ⟨⟨by decide, rfl,
     (transport_sentinel_divergence_only (fun _ => Except.error "boom")
       "member_b" "boom" (fun _ => none) (fun _ => (0 : Nat))
       ([] : List (String × Nat)) ⟨[], ⟨[], ""⟩, []⟩).1 (by decide) rfl⟩,
   ⟨by decide, rfl,
     (transport_sentinel_divergence_only (fun _ => Except.ok "hello")
       "member_a" "boom" (fun _ => none) (fun _ => (0 : Nat))
       ([] : List (String × Nat)) ⟨[], ⟨[], ""⟩, []⟩).2.1 "hello"
       (by decide) rfl⟩,
   (transport_sentinel_divergence_only (fun _ => Except.error "boom")
     "member_b" "boom" (fun _ => none) (fun _ => (0 : Nat))
     ([] : List (String × Nat)) ⟨[], ⟨[], ""⟩, []⟩).2.2.1,
   (transport_sentinel_divergence_only (fun _ => Except.error "boom")
     "member_b" "boom" (fun _ => none) (fun _ => (0 : Nat))
     ([] : List (String × Nat)) ⟨[], ⟨[], ""⟩, []⟩).2.2.2⟩

end Council

namespace MainApp

lemma err_branch_props (n : Nat) (hn : n < 9) (e : String) :
    ((protocolEvents.take n ++ [errEvent e]).map Event.stage).count
        Stage.done ≤ 1 ∧
    ((∃ ev ∈ protocolEvents.take n ++ [errEvent e], ev.stage = Stage.done) →
      protocolEvents.take n ++ [errEvent e] = protocolEvents) ∧
    (∀ ev ∈ protocolEvents.take n ++ [errEvent e], ev.stage = Stage.error →
      (protocolEvents.take n ++ [errEvent e]).getLast? = some ev) := by
  interval_cases n <;>
    simp [protocolEvents, errEvent] <;>
    intro ev h <;> simp_all

/-- C2: the generator emits exactly the protocol-ordered event sequence,
possibly truncated by a single terminal error event; `done` appears at
most once, and only when every stage through `synthesis complete`
succeeded (so `done` follows `synthesis complete`); an `error` event,
if present, is the last event of the stream. -/
theorem generator_event_order {α β γ δ ε : Type}
    (cls : Except String α) (rag : Except String β)
    (div : Except String γ) (conv : Except String δ)
    (syn : Except String ε) (store : Except String Unit) :
    (council_event_generator cls rag div conv syn store = protocolEvents ∨
      ∃ n e, n < 9 ∧
        council_event_generator cls rag div conv syn store =
          protocolEvents.take n ++ [errEvent e]) ∧
    ((council_event_generator cls rag div conv syn store).map
        Event.stage).count Stage.done ≤ 1 ∧
    ((∃ ev ∈ council_event_generator cls rag div conv syn store,
        ev.stage = Stage.done) →
      council_event_generator cls rag div conv syn store = protocolEvents) ∧
    (∀ ev ∈ council_event_generator cls rag div conv syn store,
      ev.stage = Stage.error →
      (council_event_generator cls rag div conv syn store).getLast? =
        some ev) := by
  rcases cls with e | a
  · have hEq : council_event_generator (Except.error e : Except String α)
        rag div conv syn store = protocolEvents.take 0 ++ [errEvent e] := rfl
    rw [hEq]
    exact ⟨Or.inr ⟨0, e, by omega, rfl⟩, err_branch_props 0 (by omega) e⟩
  rcases rag with e | b
  · have hEq : council_event_generator (Except.ok a)
        (Except.error e : Except String β) div conv syn store =
        protocolEvents.take 1 ++ [errEvent e] := rfl
    rw [hEq]
    exact ⟨Or.inr ⟨1, e, by omega, rfl⟩, err_branch_props 1 (by omega) e⟩
  rcases div with e | c
  · have hEq : council_event_generator (Except.ok a) (Except.ok b)
        (Except.error e : Except String γ) conv syn store =
        protocolEvents.take 3 ++ [errEvent e] := rfl
    rw [hEq]
    exact ⟨Or.inr ⟨3, e, by omega, rfl⟩, err_branch_props 3 (by omega) e⟩
  rcases conv with e | d
  · have hEq : council_event_generator (Except.ok a) (Except.ok b)
        (Except.ok c) (Except.error e : Except String δ) syn store =
        protocolEvents.take 5 ++ [errEvent e] := rfl
    rw [hEq]
    exact ⟨Or.inr ⟨5, e, by omega, rfl⟩, err_branch_props 5 (by omega) e⟩
  rcases syn with e | f
  · have hEq : council_event_generator (Except.ok a) (Except.ok b)
        (Except.ok c) (Except.ok d) (Except.error e : Except String ε)
        store = protocolEvents.take 7 ++ [errEvent e] := rfl
    rw [hEq]
    exact ⟨Or.inr ⟨7, e, by omega, rfl⟩, err_branch_props 7 (by omega) e⟩
  · have hEq : council_event_generator (Except.ok a) (Except.ok b)
        (Except.ok c) (Except.ok d) (Except.ok f) store =
        protocolEvents := by
      rcases store with _ | _ <;> rfl
    rw [hEq]
    refine ⟨Or.inl rfl, by decide, fun _ => rfl, by decide⟩

/-- Witness for `generator_event_order`: a run whose synthesis stage
raises, at concrete outcomes. -/
theorem generator_event_order_witness :
    (council_event_generator (Except.ok 0) (Except.ok 0) (Except.ok 0)
        (Except.ok 0) (Except.error "boom" : Except String Nat) (Except.ok ()) =
          protocolEvents ∨
      ∃ n e, n < 9 ∧
        council_event_generator (Except.ok 0) (Except.ok 0) (Except.ok 0)
            (Except.ok 0) (Except.error "boom" : Except String Nat) (Except.ok ()) =
          protocolEvents.take n ++ [errEvent e]) ∧
    ((council_event_generator (Except.ok 0) (Except.ok 0) (Except.ok 0)
        (Except.ok 0) (Except.error "boom" : Except String Nat) (Except.ok ())).map
          Event.stage).count Stage.done ≤ 1 ∧
    ((∃ ev ∈ council_event_generator (Except.ok 0) (Except.ok 0)
          (Except.ok 0) (Except.ok 0) (Except.error "boom" : Except String Nat) (Except.ok ()),
        ev.stage = Stage.done) →
      council_event_generator (Except.ok 0) (Except.ok 0) (Except.ok 0)
          (Except.ok 0) (Except.error "boom" : Except String Nat) (Except.ok ()) =
        protocolEvents) ∧
    (∀ ev ∈ council_event_generator (Except.ok 0) (Except.ok 0)
        (Except.ok 0) (Except.ok 0) (Except.error "boom" : Except String Nat) (Except.ok ()),
      ev.stage = Stage.error →
      (council_event_generator (Except.ok 0) (Except.ok 0) (Except.ok 0)
          (Except.ok 0) (Except.error "boom" : Except String Nat) (Except.ok ())).getLast? =
        some ev) :=
  generator_event_order (Except.ok 0) (Except.ok 0) (Except.ok 0)
    (Except.ok 0) (Except.error "boom" : Except String Nat) (Except.ok ())

end MainApp

namespace RedFlags

lemma mem_immediateTriggered {symptoms : List Str} {flag s : Str}
    (hflag : flag ∈ IMMEDIATE_RED_FLAGS) (hs : s ∈ symptoms)
    (hmatch : pyIn flag (normalize_text s) = true) :
    flag ∈ immediateTriggered symptoms := by
  unfold immediateTriggered
  rw [List.mem_flatMap]
  refine ⟨flag, hflag, ?_⟩
  rw [List.mem_map]
  refine ⟨normalize_text s, ?_, rfl⟩
  rw [List.mem_filter]
  exact ⟨List.mem_map_of_mem _ hs, hmatch⟩

lemma checkImmediateFlags_pos (symptoms : List Str)
    (hne : immediateTriggered symptoms ≠ []) :
    checkImmediateFlags symptoms =
      (true, immediateTriggered symptoms,
       "IMMEDIATE EMERGENCY: Detected critical symptoms: " ++
         String.intercalate ", "
           ((immediateTriggered symptoms).map (fun t => String.mk t)) ++
         ". Seek emergency care immediately or call emergency services.") := by
  simp only [checkImmediateFlags]
  rw [if_neg]
  simp [List.isEmpty_iff, hne]

lemma checkImmediateFlags_neg (symptoms : List Str)
    (h : (checkImmediateFlags symptoms).1 = false) :
    checkImmediateFlags symptoms = (false, [], "") := by
  by_cases he : (immediateTriggered symptoms).isEmpty
  · simp only [checkImmediateFlags]
    rw [if_pos he]
  · simp only [checkImmediateFlags] at h
    rw [if_neg (by simp [he])] at h
    simp at h

lemma checkCombinationRules_neg (symptoms : List Str)
    (h : (checkCombinationRules symptoms).1 = false) :
    checkCombinationRules symptoms = (false, [], "") := by
  unfold checkCombinationRules at h ⊢
  cases hf : COMBINATION_RULES.find? (fun rule =>
      rule.threshold ≤ (comboMatched symptoms rule).length) with
  | none => rfl
  | some r =>
    rw [hf] at h
    simp at h

lemma checkUrgentFlags_neg (symptoms : List Str)
    (h : (checkUrgentFlags symptoms).1 = false) :
    checkUrgentFlags symptoms = (false, [], "") := by
  by_cases he : (urgentTriggered symptoms).isEmpty
  · simp only [checkUrgentFlags]
    rw [if_pos he]
  · simp only [checkUrgentFlags] at h
    rw [if_neg (by simp [he])] at h
    simp at h

/-- C4: any symptom whose lowercased, stripped text contains an
Immediate-list phrase as a substring makes `evaluate` return an
Immediate verdict (is_emergency, urgency "immediate") whose
triggered_rules contain that phrase, regardless of vitals. -/
theorem immediate_phrase_gives_immediate (symptoms : List Str)
    (vitals : List (String × ℚ)) (flag s : Str)
    (hflag : flag ∈ IMMEDIATE_RED_FLAGS) (hs : s ∈ symptoms)
    (hmatch : pyIn flag (normalize_text s) = true) :
    (evaluate symptoms vitals).is_emergency = true ∧
    (evaluate symptoms vitals).urgency_level = "immediate" ∧
    TrigEntry.phrase flag ∈ (evaluate symptoms vitals).triggered_rules := by
  have hmem := mem_immediateTriggered hflag hs hmatch
  have hne : immediateTriggered symptoms ≠ [] := List.ne_nil_of_mem hmem
  have hpos := checkImmediateFlags_pos symptoms hne
  unfold evaluate
  rw [hpos]
  refine ⟨rfl, rfl, ?_⟩
  show TrigEntry.phrase flag ∈
    (immediateTriggered symptoms).map TrigEntry.phrase
  exact List.mem_map_of_mem _ hmem

/-- Witness for `immediate_phrase_gives_immediate` on the concrete
prompt "severe chest pain". -/
theorem immediate_phrase_witness :
    ("severe chest pain".data ∈ IMMEDIATE_RED_FLAGS ∧
     "severe chest pain".data ∈ ["severe chest pain".data] ∧
     pyIn "severe chest pain".data
       (normalize_text "severe chest pain".data) = true) ∧
    ((evaluate ["severe chest pain".data] []).is_emergency = true ∧
     (evaluate ["severe chest pain".data] []).urgency_level = "immediate" ∧
     TrigEntry.phrase "severe chest pain".data ∈
       (evaluate ["severe chest pain".data] []).triggered_rules) :=
  ⟨⟨by decide, by decide, by decide⟩,
   immediate_phrase_gives_immediate ["severe chest pain".data] []
     "severe chest pain".data "severe chest pain".data
     (by decide) (by decide) (by decide)⟩

lemma threshold_level (n : String) (t : VitalThreshold)
    (h : VITAL_THRESHOLDS n = some t) :
    t.level = "urgent" ∨ t.level = "immediate" := by
  unfold VITAL_THRESHOLDS at h
  split_ifs at h <;> cases h <;> simp

lemma checkVitalSigns_none (vitals : List (String × ℚ))
    (hv : ∀ nv ∈ vitals, ∀ t, VITAL_THRESHOLDS nv.1 = some t →
      t.min ≤ nv.2 ∧ nv.2 ≤ t.max) :
    checkVitalSigns vitals = (false, [], "", false) := by
  have hfil : vitals.filter (fun nv =>
      match VITAL_THRESHOLDS nv.1 with
      | some t => decide (nv.2 < t.min) || decide (t.max < nv.2)
      | none => false) = [] := by
    rw [List.filter_eq_nil_iff]
    intro nv hnv
    cases hl : VITAL_THRESHOLDS nv.1 with
    | none => simp
    | some t =>
      have hb := hv nv hnv t hl
      simp [not_lt.mpr hb.1, not_lt.mpr hb.2]
  simp only [checkVitalSigns, hfil]
  rfl

lemma checkVitalSigns_single_out (n : String) (v : ℚ) (t : VitalThreshold)
    (h : VITAL_THRESHOLDS n = some t) (hout : v < t.min ∨ t.max < v) :
    checkVitalSigns [(n, v)] =
      (true, [(n, v)],
       (if t.level == "immediate" then "IMMEDIATE EMERGENCY" else "URGENT") ++
         ": Vital signs outside safe range: " ++
         String.intercalate ", "
           ([(n, v)].map (fun nv => nv.1 ++ "=" ++ toString nv.2)) ++
         ". Seek medical attention.",
       t.level == "immediate") := by
  have hp : (match VITAL_THRESHOLDS n with
      | some t => decide (v < t.min) || decide (t.max < v)
      | none => false) = true := by
    rw [h]
    rcases hout with h1 | h1 <;> simp [h1]
  have hfil : [(n, v)].filter (fun nv =>
      match VITAL_THRESHOLDS nv.1 with
      | some t => decide (nv.2 < t.min) || decide (t.max < nv.2)
      | none => false) = [(n, v)] := by
    rw [List.filter_cons_of_pos]
    · rfl
    · exact hp
  have hany : ([(n, v)].any (fun nv =>
      match VITAL_THRESHOLDS nv.1 with
      | some t => t.level == "immediate"
      | none => false)) = (t.level == "immediate") := by
    simp only [List.any_cons, List.any_nil, Bool.or_false, h]
  simp only [checkVitalSigns, hfil, hany]
  rfl

/-- C9: with symptoms that trigger no immediate, combination, or urgent
rule, vitals that all lie within (including exactly at the bounds of)
their safe bands flag nothing and yield a Routine verdict with empty
triggered rules; a single vital strictly outside its band instead
raises the verdict to the declared tier of that vital — "immediate" for
oxygen saturation, "urgent" for the others. -/
theorem vitals_at_bound_safe (symptoms : List Str)
    (vitals : List (String × ℚ))
    (h1 : (checkImmediateFlags symptoms).1 = false)
    (h2 : (checkCombinationRules symptoms).1 = false)
    (h3 : (checkUrgentFlags symptoms).1 = false)
    (hv : ∀ nv ∈ vitals, ∀ t, VITAL_THRESHOLDS nv.1 = some t →
      t.min ≤ nv.2 ∧ nv.2 ≤ t.max) :
    (checkVitalSigns vitals).2.1 = [] ∧
    evaluate symptoms vitals =
      ⟨false, "No immediate red flags detected.", [], "routine"⟩ ∧
    (∀ n v t, VITAL_THRESHOLDS n = some t → (v < t.min ∨ t.max < v) →
      (evaluate symptoms [(n, v)]).urgency_level = t.level ∧
      (evaluate symptoms [(n, v)]).is_emergency = (t.level == "immediate")) := by
  have h1' := checkImmediateFlags_neg symptoms h1
  have h2' := checkCombinationRules_neg symptoms h2
  have h3' := checkUrgentFlags_neg symptoms h3
  have hvs := checkVitalSigns_none vitals hv
  refine ⟨by rw [hvs], ?_, ?_⟩
  · unfold evaluate
    rw [h1', h2', h3']
    by_cases he : vitals.isEmpty
    · simp only [he, if_true]
      rfl
    · simp only [he, if_false, Bool.false_eq_true, hvs]
      rfl
  · intro n v t ht hout
    have hvs1 := checkVitalSigns_single_out n v t ht hout
    unfold evaluate
    rw [h1', h2', h3']
    have hne : ([(n, v)] : List (String × ℚ)).isEmpty = false := rfl
    simp only [hne, if_false, Bool.false_eq_true, hvs1]
    rcases threshold_level n t ht with hl | hl <;>
      simp [hl]

/-- Witness for `vitals_at_bound_safe`: no symptoms, oxygen saturation
exactly at its lower bound 92. -/
theorem vitals_at_bound_safe_witness :
    ((checkImmediateFlags []).1 = false ∧
     (checkCombinationRules []).1 = false ∧
     (checkUrgentFlags []).1 = false ∧
     (∀ nv ∈ [(("oxygen_saturation" : String), (92 : ℚ))],
        ∀ t, VITAL_THRESHOLDS nv.1 = some t →
          t.min ≤ nv.2 ∧ nv.2 ≤ t.max)) ∧
    ((checkVitalSigns [("oxygen_saturation", (92 : ℚ))]).2.1 = [] ∧
     evaluate [] [("oxygen_saturation", (92 : ℚ))] =
       ⟨false, "No immediate red flags detected.", [], "routine"⟩ ∧
     (∀ n v t, VITAL_THRESHOLDS n = some t → (v < t.min ∨ t.max < v) →
       (evaluate [] [(n, v)]).urgency_level = t.level ∧
       (evaluate [] [(n, v)]).is_emergency = (t.level == "immediate"))) :=
  ⟨⟨by decide, by decide, by decide, by decide⟩,
   vitals_at_bound_safe [] [("oxygen_saturation", (92 : ℚ))]
     (by decide) (by decide) (by decide) (by decide)⟩

end RedFlags

namespace RagEngine

/-- C3 counterexample: rebuilding is not atomic.  Starting from a fully
built engine, a rebuild whose fit step raises (for example, fitting on
a degenerate corpus) leaves the engine neither with a new installed
index nor in its previous state: the old index has been torn down
(documents cleared and reloaded, `_is_built` false, vectorizer
replaced by the unfitted one) while no new index was installed. -/
theorem rebuild_not_atomic :
    ¬ ((rebuild_index sampleLoad 1
          (fun _ => Except.error "empty vocabulary; perhaps the documents only contain stop words")
          sampleBuilt).1.is_built = true ∨
       (rebuild_index sampleLoad 1
          (fun _ => Except.error "empty vocabulary; perhaps the documents only contain stop words")
          sampleBuilt).1 = sampleBuilt) := by
  decide

/-- C3 amended: a rebuild first discards the old index state (clears
the document list and the built flag) and only then builds.  On an
empty loaded corpus the engine stays unbuilt; if the build step raises,
the old index is not restored — the engine is left unbuilt, with the
freshly loaded documents and the unfitted vectorizer, and the exception
propagates; only when the build succeeds is the new index installed. -/
theorem rebuild_spec {Vec Idx : Type} (load : List Doc) (mkVec : Vec)
    (fit : List Doc → Except String (Vec × Idx)) (s : EngineState Vec Idx) :
    (load = [] →
      rebuild_index load mkVec fit s =
        ({ s with documents := [], is_built := false }, none)) ∧
    (∀ e, load ≠ [] → fit load = Except.error e →
      rebuild_index load mkVec fit s =
        ({ s with
            documents := load,
            vectorizer := some mkVec,
            is_built := false }, some e)) ∧
    (∀ fv idx, load ≠ [] → fit load = Except.ok (fv, idx) →
      rebuild_index load mkVec fit s =
        (⟨load, some fv, some idx, true⟩, none)) := by
  refine ⟨?_, ?_, ?_⟩
  · intro h
    subst h
    rfl
  · intro e hne hfit
    unfold rebuild_index build_index
    simp only [List.isEmpty_nil, if_true]
    rw [if_neg (by simp [List.isEmpty_iff, hne]), hfit]
  · intro fv idx hne hfit
    unfold rebuild_index build_index
    simp only [List.isEmpty_nil, if_true]
    rw [if_neg (by simp [List.isEmpty_iff, hne]), hfit]

/-- Witness for `rebuild_spec`: the three branches at concrete inputs. -/
theorem rebuild_spec_witness :
    (([] : List Doc) = [] ∧
      rebuild_index ([] : List Doc) (1 : Nat)
          (fun _ => (Except.error "e" : Except String (Nat × Nat)))
          sampleBuilt =
        ({ sampleBuilt with documents := [], is_built := false }, none)) ∧
    (sampleLoad ≠ [] ∧
      (fun _ => (Except.error "e" : Except String (Nat × Nat))) sampleLoad =
        Except.error "e" ∧
      rebuild_index sampleLoad (1 : Nat)
          (fun _ => (Except.error "e" : Except String (Nat × Nat)))
          sampleBuilt =
        ({ sampleBuilt with
            documents := sampleLoad,
            vectorizer := some 1,
            is_built := false }, some "e")) ∧
    (sampleLoad ≠ [] ∧
      (fun _ => (Except.ok ((2 : Nat), (3 : Nat)) : Except String (Nat × Nat)))
          sampleLoad = Except.ok (2, 3) ∧
      rebuild_index sampleLoad (1 : Nat)
          (fun _ => (Except.ok ((2 : Nat), (3 : Nat)) : Except String (Nat × Nat)))
          sampleBuilt =
        (⟨sampleLoad, some 2, some 3, true⟩, none)) :=
  ⟨⟨rfl, (rebuild_spec ([] : List Doc) 1 _ sampleBuilt).1 rfl⟩,
   ⟨by decide, rfl,
    (rebuild_spec sampleLoad 1 _ sampleBuilt).2.1 "e" (by decide) rfl⟩,
   ⟨by decide, rfl,
    (rebuild_spec sampleLoad 1 _ sampleBuilt).2.2 2 3 (by decide) rfl⟩⟩

end RagEngine

namespace Reports

/-- C10: for any filename whose (lowercased) extension is not .pdf,
.docx, or .doc, report ingestion extracts text through the total txt
path: the result always has status "processed" and the persisted
record has extracted_text equal to `extract_text_from_txt` of the bytes; when
UTF-8 decoding fails the extraction equals the latin-1 decoding, which
accepts every byte sequence (one character per byte).  Totality of
extraction — no exception — is witnessed by the functions being plain
total functions. -/
theorem txt_ingestion_never_fails
    (pdfLib docxLib : List Byte → Except String (List Char))
    (rid now : String) (filename : List Char) (file_bytes : List Byte)
    (reports : List ReportRecord)
    (hext : pySuffixLower filename ∉
      [".pdf".data, ".docx".data, ".doc".data]) :
    process_report pdfLib docxLib rid now filename file_bytes reports =
      (⟨rid, filename, (extract_text_from_txt file_bytes).length,
        wordCount (extract_text_from_txt file_bytes), "processed"⟩,
       reports ++
         [⟨rid, filename, pySuffixLower filename, now,
           extract_text_from_txt file_bytes,
           (extract_text_from_txt file_bytes).length,
           wordCount (extract_text_from_txt file_bytes)⟩]) ∧
    (utf8Decode file_bytes = none →
      extract_text_from_txt file_bytes = latin1Decode file_bytes) ∧
    (latin1Decode file_bytes).length = file_bytes.length := by
  simp only [List.mem_cons, List.not_mem_nil, or_false, not_or] at hext
  obtain ⟨h1, h2, h3⟩ := hext
  refine ⟨?_, ?_, ?_⟩
  · simp only [process_report]
    rw [if_neg h1, if_neg (by simp [h2, h3])]
    by_cases ht : pySuffixLower filename = ".txt".data ∨
        pySuffixLower filename = ".text".data
    · rw [if_pos ht]
    · rw [if_neg ht]
  · intro h
    unfold extract_text_from_txt
    rw [h]
  · exact List.length_map _ _

/-- Witness for `txt_ingestion_never_fails`: the file "scan.bin" with
the single byte 0xFF, which is not valid UTF-8. -/
theorem txt_ingestion_never_fails_witness :
    (pySuffixLower "scan.bin".data ∉
      [".pdf".data, ".docx".data, ".doc".data]) ∧
    (process_report (fun _ => Except.error "x") (fun _ => Except.error "x")
        "report_00000000" "t" "scan.bin".data [(255 : Byte)] [] =
      (⟨"report_00000000", "scan.bin".data,
        (extract_text_from_txt [(255 : Byte)]).length,
        wordCount (extract_text_from_txt [(255 : Byte)]), "processed"⟩,
       [] ++
         [⟨"report_00000000", "scan.bin".data, pySuffixLower "scan.bin".data,
           "t", extract_text_from_txt [(255 : Byte)],
           (extract_text_from_txt [(255 : Byte)]).length,
           wordCount (extract_text_from_txt [(255 : Byte)])⟩]) ∧
     (utf8Decode [(255 : Byte)] = none →
       extract_text_from_txt [(255 : Byte)] = latin1Decode [(255 : Byte)]) ∧
     (latin1Decode [(255 : Byte)]).length = [(255 : Byte)].length) :=
  ⟨by decide,
   txt_ingestion_never_fails (fun _ => Except.error "x")
     (fun _ => Except.error "x") "report_00000000" "t" "scan.bin".data
     [(255 : Byte)] [] (by decide)⟩

end Reports
